import Mathlib

/-!
Verification development for the foss-sftp batch job (src/utils.py, src/main.py).

Modelling conventions, used throughout:

* Python strings are modelled as lists of characters (`Str := List Char`);
  `str` converts a Lean string literal into this representation.
* Calendar dates appear in two forms, matching how the source manipulates them:
  - as day ordinals (`ℤ`) for `get_recent_business_date`, which walks day by
    day via `timedelta(days=1)`; the ordinal is chosen so that `d % 7` is the
    Python `weekday()` (0 = Monday, ..., 6 = Sunday).  `strptime`/`strftime`
    are a bijection between valid `YYYYMMDD` strings and ordinals, so the
    walk is modelled directly on ordinals.
  - as `YYYYMMDD` numerals (`ℕ`) for the SQL queries, where comparisons and
    `LEFT(trddate, 6)` / `SUBSTRING(trddate, 5, 2)` on fixed-width digit
    strings coincide with `≤`, `/ 100` and `(· / 100) % 100` on the numeral.
* The Korean holiday calendar `holidays.KR()` is modelled as a finite set of
  day ordinals (`Finset ℤ`): any concrete run only ever materialises finitely
  many holiday dates, and no year consists entirely of holidays.
* Loops are embedded with explicit fuel; termination of the source loop is
  the statement that some fuel returns `some`.
-/

/-! ## Shared string model -/

abbrev Str := List Char

def str (s : String) : Str := s.data

def semi : Str := [';']

/-- Splitting a character list at every `';'`, the model of reading the
semicolon-delimited wire format back into fields. -/
def splitSemi : Str → List Str
  | [] => [[]]
  | c :: cs =>
    if c = ';' then [] :: splitSemi cs
    else
      match splitSemi cs with
      | [] => [[c]]
      | y :: ys => (c :: y) :: ys

/-! ## C1 / C10 : `get_recent_business_date` (src/utils.py lines 1093-1123) -/

/-- `target_date.weekday() < 5 and target_date not in kr_holidays`
(src/utils.py line 1098), over day ordinals with `d % 7` the weekday. -/
def isTradingDay (H : Finset ℤ) (d : ℤ) : Prop := d % 7 < 5 ∧ d ∉ H

instance (H : Finset ℤ) (d : ℤ) : Decidable (isTradingDay H d) :=
  inferInstanceAs (Decidable (d % 7 < 5 ∧ d ∉ H))

/-- The first backward walk (src/utils.py lines 1102-1106): starting at `x`,
step one day back while the current day is a weekend day or a holiday.
Fuel-indexed; `none` means the fuel ran out before a trading day was found. -/
def walkBack1 (H : Finset ℤ) : ℕ → ℤ → Option ℤ
  | 0, _ => none
  | fuel + 1, x => if isTradingDay H x then some x else walkBack1 H fuel (x - 1)

/-- The second backward walk (src/utils.py lines 1111-1120): starting at `x`
with `count` trading days already seen, increment the count on a trading day
and step one day back until two trading days have been counted; the loop
leaves `recent_business_date` on the second trading day found. -/
def walkBack2 (H : Finset ℤ) : ℕ → ℤ → ℕ → Option ℤ
  | 0, _, _ => none
  | fuel + 1, x, count =>
    let count2 := if isTradingDay H x then count + 1 else count
    if count2 < 2 then walkBack2 H fuel (x - 1) count2 else some x

/-- `get_recent_business_date` (src/utils.py lines 1093-1123): if the input is
a trading day, walk back from the previous day to the first trading day;
otherwise walk back from the previous day counting two trading days. -/
def get_recent_business_date (H : Finset ℤ) (fuel : ℕ) (d : ℤ) : Option ℤ :=
  if isTradingDay H d then walkBack1 H fuel (d - 1)
  else walkBack2 H fuel (d - 1) 0

/-! ## C2 : `calculate_performance` compounding (src/utils.py lines 1213-1241)

The daily returns are exact rationals here; pandas `.round(2)` is banker's
(half-to-even) rounding, modelled exactly on `ℚ`. -/

/-- Round to the nearest integer, ties to the even integer (the rounding used
by the pandas `round` call on `total_rt`). -/
def roundHalfEven (q : ℚ) : ℤ :=
  if q - ⌊q⌋ < 1 / 2 then ⌊q⌋
  else if 1 / 2 < q - ⌊q⌋ then ⌊q⌋ + 1
  else if ⌊q⌋ % 2 = 0 then ⌊q⌋ else ⌊q⌋ + 1

/-- Round to 2 decimal places, ties to even (`.round(2)`, src/utils.py
line 1239). -/
def round2 (q : ℚ) : ℚ := (roundHalfEven (q * 100) : ℚ) / 100

/-- The per-group aggregation `total_rt = (x + 1).prod() * 100 - 100` followed
by `.round(2)` (src/utils.py lines 1236-1239), for one group's list of daily
returns. -/
def total_rt (rs : List ℚ) : ℚ :=
  round2 ((rs.map (fun r => r + 1)).prod * 100 - 100)

/-- Modelled from the spec words: `((Π(1 + daily_return_i)) - 1) * 100`,
rounded to 2 decimal places half-to-even; compared against `total_rt`. -/
def specCompoundedReturn (rs : List ℚ) : ℚ :=
  round2 (((rs.map (fun r => 1 + r)).prod - 1) * 100)

/-! ## C3 : `get_next_rebalancing_date` (src/utils.py lines 1399-1419)

`TBL_HOLIDAY` rows carry a `YYYYMMDD` date numeral and a holiday flag
(`holiday_yn = 'N'` is modelled as `holiday_yn = false`).  On fixed-width
digit strings, `LEFT(trddate, 6)` comparisons are `· / 100` comparisons and
`SUBSTRING(trddate, 5, 2)` is `(· / 100) % 100`.  `ROW_NUMBER() OVER
(PARTITION BY LEFT(trddate, 6) ORDER BY trddate ASC)` is the count of
same-month rows with a date `≤` the row's date; the table invariant (one row
per calendar date) makes this the row number. -/

structure HolRow where
  trddate : ℕ
  holiday_yn : Bool

/-- The inner derived table `S1` of the query (src/utils.py lines 1403-1410):
rows of `TBL_HOLIDAY` whose month is at least the target's month, that are
trading days, and whose month is one of 01, 04, 07, 10. -/
def rebal_pool (T : List HolRow) (d : ℕ) : List ℕ :=
  (T.filter fun r => decide (d / 100 ≤ r.trddate / 100 ∧ r.holiday_yn = false ∧
    (r.trddate / 100) % 100 ∈ ([1, 4, 7, 10] : List ℕ))).map fun r => r.trddate

/-- `MonthCnt`, the `ROW_NUMBER` of a date within its month partition of the
derived table. -/
def monthCnt (T : List HolRow) (d t : ℕ) : ℕ :=
  ((rebal_pool T d).filter fun u => decide (u / 100 = t / 100 ∧ u ≤ t)).length

/-- `get_next_rebalancing_date` (src/utils.py lines 1399-1419):
`MIN(trddate)` over the derived table rows with `trddate >= target` and
`MonthCnt = i_opent_day`; `none` models the SQL `NULL` of an empty `MIN`. -/
def get_next_rebalancing_date (T : List HolRow) (d n : ℕ) : Option ℕ :=
  ((rebal_pool T d).filter fun t => decide (d ≤ t ∧ monthCnt T d t = n)).min?

/-- The trading days recorded in the calendar table. -/
def tradingDates (T : List HolRow) : List ℕ :=
  (T.filter fun r => decide (r.holiday_yn = false)).map fun r => r.trddate

/-- A date's ordinal among its month's trading days, numbered 1..k by
ascending date. -/
def ordinalInMonth (T : List HolRow) (t : ℕ) : ℕ :=
  ((tradingDates T).filter fun u => decide (u / 100 = t / 100 ∧ u ≤ t)).length

/-- The claim's characterisation of a candidate result: a trading day `t ≥ d`
whose month is in Jan/Apr/Jul/Oct and whose ordinal among that month's
trading days is `n`. -/
def isNthQuarterCand (T : List HolRow) (d n t : ℕ) : Prop :=
  t ∈ tradingDates T ∧ (t / 100) % 100 ∈ ([1, 4, 7, 10] : List ℕ) ∧ d ≤ t ∧
    ordinalInMonth T t = n

/-- January 2024 with no public holidays: 2024-01-01 is a Monday, so day `i`
(0-based) is a weekend day exactly when `i % 7 ≥ 5`. -/
def jan2024 : List HolRow :=
  (List.range 31).map fun i => ⟨20240101 + i, decide (5 ≤ i % 7)⟩

/-! ## C6 / C7 : `merge_terms` and `create_return_lst_column`
(src/utils.py lines 1252-1263 and 1297-1315)

Rows carry the rendered text of each numeric cell; a cell missing after the
pandas left-merge is `none`, and the Python f-string renders such a missing
(`NaN`) cell as the text `nan`. -/

/-- One row of `TMP_PERFORMANCE` at the rendered-text level (the `auth_id`
column, constant `foss`, is omitted). -/
structure PerfRow where
  term : Str
  risk_grade : Str
  prd_gb : Str
  total_rt : Str

/-- The left-merge lookup of one window's row on `(risk_grade, prd_gb)`
(src/utils.py lines 1255-1261); `none` when the window has no matching row.
`TMP_PERFORMANCE` has at most one row per `(term, risk_grade, prd_gb)` (it is
a `groupby` output), so taking the first match is the pandas merge. -/
def lookupTerm (tp : List PerfRow) (t rg pg : Str) : Option Str :=
  ((tp.filter fun r => decide (r.term = t)).find? fun r =>
    decide (r.risk_grade = rg ∧ r.prd_gb = pg)).map fun r => r.total_rt

/-- One row of the merged frame.  `expected_return` and `volatility` columns
do not exist until `add_expected_return_and_volatility` fills them; they are
initialised empty. -/
structure MergedRow where
  risk_grade : Str
  prd_gb : Str
  total_rt : Str
  total_rt_1m : Option Str
  total_rt_3m : Option Str
  total_rt_6m : Option Str
  total_rt_1y : Option Str
  total_rt_all : Option Str
  expected_return : Str
  volatility : Str

/-- The row of the merged frame produced from one `1d` anchor row. -/
def mergeRow (tp : List PerfRow) (a : PerfRow) : MergedRow :=
  ⟨a.risk_grade, a.prd_gb, a.total_rt,
    lookupTerm tp (str "1m") a.risk_grade a.prd_gb,
    lookupTerm tp (str "3m") a.risk_grade a.prd_gb,
    lookupTerm tp (str "6m") a.risk_grade a.prd_gb,
    lookupTerm tp (str "1y") a.risk_grade a.prd_gb,
    lookupTerm tp (str "all") a.risk_grade a.prd_gb,
    [], []⟩

/-- `merge_terms` (src/utils.py lines 1252-1263): the `1d` rows are the
anchor; each of the windows 1m, 3m, 6m, 1y, all is left-joined on
`(risk_grade, prd_gb)`. -/
def merge_terms (tp : List PerfRow) : List MergedRow :=
  (tp.filter fun r => decide (r.term = str "1d")).map (mergeRow tp)

/-- `expected_return_map` (src/utils.py lines 1266-1272), with the nested
`dict.get` defaults collapsing to the empty string. -/
def expected_return_map (rg pg : Str) : Str :=
  if rg = str "1" then
    (if pg = str "f12" then str "9.10" else if pg = str "f11" then str "9.04" else [])
  else if rg = str "2" then
    (if pg = str "f12" then str "12.40" else if pg = str "f11" then str "12.53" else [])
  else if rg = str "3" then
    (if pg = str "f12" then str "16.02" else if pg = str "f11" then str "16.64" else [])
  else if rg = str "4" then
    (if pg = str "f12" then str "19.14" else if pg = str "f11" then str "19.80" else [])
  else if rg = str "5" then
    (if pg = str "f12" then str "21.15" else if pg = str "f11" then str "22.99" else [])
  else []

/-- `volatility_map` (src/utils.py lines 1274-1280). -/
def volatility_map (rg pg : Str) : Str :=
  if rg = str "1" then
    (if pg = str "f12" then str "3.20" else if pg = str "f11" then str "3.10" else [])
  else if rg = str "2" then
    (if pg = str "f12" then str "4.46" else if pg = str "f11" then str "4.57" else [])
  else if rg = str "3" then
    (if pg = str "f12" then str "6.68" else if pg = str "f11" then str "6.87" else [])
  else if rg = str "4" then
    (if pg = str "f12" then str "8.60" else if pg = str "f11" then str "9.21" else [])
  else if rg = str "5" then
    (if pg = str "f12" then str "10.90" else if pg = str "f11" then str "11.51" else [])
  else []

/-- `add_expected_return_and_volatility` (src/utils.py lines 1283-1294). -/
def add_expected_return_and_volatility (r : MergedRow) : MergedRow :=
  ⟨r.risk_grade, r.prd_gb, r.total_rt, r.total_rt_1m, r.total_rt_3m, r.total_rt_6m,
    r.total_rt_1y, r.total_rt_all,
    expected_return_map r.risk_grade r.prd_gb, volatility_map r.risk_grade r.prd_gb⟩

/-- How the f-string renders a cell: the cell's text when present, the text
`nan` for a float `NaN` left by the merge. -/
def renderCell : Option Str → Str
  | some s => s
  | none => str "nan"

/-- The inline mapping `{'f12': '77', 'f11': '61'}.get(row['prd_gb'], '')`
(src/utils.py line 1302). -/
def prd_gb_code (pg : Str) : Str :=
  if pg = str "f12" then str "77" else if pg = str "f11" then str "61" else []

/-- The `lst` text of one row, exactly the f-string of
`create_return_lst_column` (src/utils.py lines 1297-1315). -/
def create_return_lst (sFndDate : Str) (r : MergedRow) : Str :=
  sFndDate ++ semi ++ r.risk_grade ++ semi ++ prd_gb_code r.prd_gb ++ semi ++
    r.total_rt ++ semi ++ renderCell r.total_rt_3m ++ semi ++
    renderCell r.total_rt_6m ++ semi ++ renderCell r.total_rt_1y ++ semi ++
    renderCell r.total_rt_all ++ semi ++ r.expected_return ++ semi ++
    r.volatility ++ semi ++ renderCell r.total_rt_1m ++ semi

/-! ## C4 : `check_rebalancing` and `fetch_rebalcus_data`
(src/utils.py lines 1382-1396 and 1422-1455) -/

/-- One row of `TBL_RESULT_MPLIST` (the columns these queries read). -/
structure MplRow where
  auth_id : Str
  port_cd : Str
  rebal_date : ℕ
  prd_gb : Str

/-- The `COUNT(*)` of `check_rebalancing`'s query (src/utils.py
lines 1383-1390). -/
def rebal_event_count (M : List MplRow) (auth : Str) (d : ℕ) (pg : Str) : ℕ :=
  (M.filter fun r => decide (r.auth_id = auth ∧ r.rebal_date = d ∧ r.prd_gb = pg)).length

/-- `check_rebalancing` (src/utils.py lines 1382-1396):
`CASE WHEN COUNT(*) = 0 THEN 'N' ELSE 'Y' END`. -/
def check_rebalancing (M : List MplRow) (d : ℕ) (auth pg : Str) : Str :=
  if rebal_event_count M auth d pg = 0 then str "N" else str "Y"

/-- `order_status IN ('Y', 'Y1', 'Y3')`. -/
def order_status_ok (ost : Str) : Prop :=
  ost = str "Y" ∨ ost = str "Y1" ∨ ost = str "Y3"

instance (ost : Str) : Decidable (order_status_ok ost) :=
  inferInstanceAs (Decidable (_ ∨ _ ∨ _))

/-- The nested `CASE` of `fetch_rebalcus_data`'s query (src/utils.py
lines 1431-1438). -/
def rebal_flag (ryn ost : Str) : Str :=
  if ryn = str "N" then str "N"
  else if ryn = str "Y" ∧ order_status_ok ost then str "Y"
  else str "N"

/-- One row of `TBL_FOSS_CUSTOMERACCOUNT` (the columns this query reads). -/
structure AccountRow where
  customer_id : Str
  investgb : Str
  order_status : Str
  trddate : ℕ

/-- The `lst` value built for one selected account row:
`customer_id + ';' + CASE ... + ';' + :next_rebal_date + ';'`. -/
def rebalcus_line (ryn next : Str) (a : AccountRow) : Str :=
  a.customer_id ++ semi ++ rebal_flag ryn a.order_status ++ semi ++ next ++ semi

/-- `fetch_rebalcus_data` (src/utils.py lines 1422-1455): the `lst` column of
the rows selected for the target date and product group. -/
def fetch_rebalcus_data (acc : List AccountRow) (d : ℕ) (gb ryn next : Str) :
    List Str :=
  (acc.filter fun a => decide (a.trddate = d ∧ a.investgb = gb)).map
    (rebalcus_line ryn next)

/-! ## C5 : `update_manual_rebalancing` (src/utils.py lines 1458-1517) -/

/-- The replacement text `f"{customer_id};{manual_rebal_yn};{forced_rebal_date};"`
(src/utils.py line 1473). -/
def manual_lst (cid flag fdate : Str) : Str :=
  cid ++ semi ++ flag ++ semi ++ fdate ++ semi

/-- The in-memory dataframe update (src/utils.py lines 1476-1479):
`lst.str.startswith(f"{customer_id};")` selects the lines to replace. -/
def update_manual_df (lines : List Str) (cid flag fdate : Str) : List Str :=
  lines.map fun l => if (cid ++ semi).isPrefixOf l then manual_lst cid flag fdate else l

/-- The SQL `lst LIKE :customer_id_prefix` with pattern
`f"{customer_id}%;"` (src/utils.py lines 1482-1497): a line matches when it
starts with the customer id, ends with `';'`, and is longer than the id —
i.e. it is of the form `cid ++ mid ++ ";"`. -/
def like_matches (cid l : Str) : Bool :=
  cid.isPrefixOf l && decide (cid.length + 1 ≤ l.length) && semi.isSuffixOf l

/-- The staged `TBL_FOSS_BCPDATA` update executed for one overridden
customer (src/utils.py lines 1482-1497), over the batch's `lst` values. -/
def update_manual_bcp (staged : List Str) (cid flag fdate : Str) : List Str :=
  staged.map fun l => if like_matches cid l then manual_lst cid flag fdate else l

/-! ## C8 : the guard of `process_yesterday_return_data`
(src/utils.py lines 462-528)

The two count queries are embedded from the SQL; the downstream pipeline
(windows already labelled, cells at rendered-text level) reuses the C6/C7
definitions, so the staged rows of the non-aborting branch are computed. -/

/-- One row of `TBL_RESULT_RETURN` (the columns the count query reads). -/
structure RrRow where
  auth_id : Str
  port_cd : Str
  trddate : ℕ

/-- `SELECT COUNT(auth_id) FROM TBL_RESULT_RETURN WHERE auth_id = 'foss' AND
trddate = :trddate` (src/utils.py lines 470-477). -/
def count_result_return (rr : List RrRow) (fnd : ℕ) : ℕ :=
  (rr.filter fun r => decide (r.auth_id = str "foss" ∧ r.trddate = fnd)).length

/-- The distinct `port_cd` count over the latest rebalancing batch
(src/utils.py lines 479-493); 0 when the table has no `foss` rows (the SQL
`MAX` is NULL and the subquery matches nothing). -/
def count_port_cd (M : List MplRow) : ℕ :=
  match ((M.filter fun r => decide (r.auth_id = str "foss")).map
      fun r => r.rebal_date).max? with
  | none => 0
  | some mx =>
    (((M.filter fun r => decide (r.auth_id = str "foss" ∧ r.rebal_date = mx)).map
      fun r => r.port_cd).dedup).length

/-- Lexicographic comparison of character lists (for the pandas
`sort_values`). -/
def strLe : Str → Str → Bool
  | [], _ => true
  | _ :: _, [] => false
  | a :: as, b :: bs => if a < b then true else if b < a then false else strLe as bs

def mergedLe (x y : MergedRow) : Bool :=
  if x.prd_gb = y.prd_gb then strLe x.risk_grade y.risk_grade
  else strLe x.prd_gb y.prd_gb

def insertMerged (x : MergedRow) : List MergedRow → List MergedRow
  | [] => [x]
  | y :: ys => if mergedLe y x then y :: insertMerged x ys else x :: y :: ys

/-- `sort_values(by=["prd_gb", "risk_grade"])` (src/utils.py line 507),
as a stable insertion sort. -/
def sortMerged : List MergedRow → List MergedRow
  | [] => []
  | x :: xs => insertMerged x (sortMerged xs)

/-- A `YYYYMMDD` numeral rendered back to text. -/
def natDateStr (n : ℕ) : Str := (Nat.repr n).data

/-- The `lst` column of the non-aborting branch (src/utils.py lines 501-514):
merge the windows, attach expected return and volatility, sort, render. -/
def mp_info_lines (tp : List PerfRow) (fnd : ℕ) : List Str :=
  (sortMerged ((merge_terms tp).map add_expected_return_and_volatility)).map
    (create_return_lst (natDateStr fnd))

/-- The externally visible effects of one `process_yesterday_return_data`
run: staged `TBL_FOSS_BCPDATA` rows, whether a local file was written,
whether an SFTP upload happened, whether an exception propagated, and the
log lines. -/
structure ProcessEffects where
  bcp_lst : List Str
  file_written : Bool
  uploaded : Bool
  raised : Bool
  logs : List Str

/-- `process_yesterday_return_data` (src/utils.py lines 462-536) at the
granularity of its effects: when the two counts differ the function logs and
returns (src/utils.py lines 495-499) with no insert, no file and no error;
otherwise it stages and uploads the computed `mp_info` lines. -/
def process_yesterday_return_data (rr : List RrRow) (M : List MplRow)
    (tp : List PerfRow) (fnd : ℕ) : ProcessEffects :=
  if count_result_return rr fnd ≠ count_port_cd M then
    ⟨[], false, false, false,
      [str "Data mismatch between TBL_RESULT_RETURN and TBL_RESULT_MPLIST. Process stopped."]⟩
  else
    ⟨mp_info_lines tp fnd, true, true, false,
      [str "Data(mp_info) has been inserted into the TBL_FOSS_BCPDATA table.",
        str "File successfully uploaded to SFTP server"]⟩

/-! ## C9 : failure propagation (src/utils.py lines 10-23, 138-212, 560-580,
src/main.py lines 192-204)

A per-operation body either succeeds or fails with a message (`Except`).
The source has three handler shapes, not one:

* `audited` — the eight operations with failure audit handlers
  (`insert_fnd_list_data`, `insert_customer_account_data`,
  `insert_customer_fund_data`, `process_yesterday_return_data`,
  `process_mp_list`, `process_rebalcus`, `process_report`,
  `process_mp_info_eof`): on failure they log the error, write a
  `TBL_EVENT_LOG` row with result `false` and a `TBL_BATCH_PROCESSING_LOG`
  row with result `failed`, and re-raise.  (The wording of the logged
  message varies per operation; a generic one stands for it here.)
* `logOnly` — `delete_old_bcp_data` (src/utils.py lines 10-23, the
  DELETE_OLDDATA operation): on failure it logs the error and re-raises,
  writing no audit row at all.
* `unguarded` — `insert_fnd_list_data_to_qbt_api` (src/utils.py
  lines 138-212, the second step of RECEIVE_UNIVERSE): it has no
  `try/except`, so a failure propagates with nothing logged and no audit
  row.

`main` wraps the operation in an inner `except` (log, re-raise, src/main.py
lines 192-194) and an outer `except` (log only, src/main.py lines 203-204);
no exit code is ever set, so the Python process exits 0 on both paths. -/

inductive OpWrapper where
  | audited
  | logOnly
  | unguarded

/-- What one per-operation function writes: console log lines, the `result`
columns of the `TBL_EVENT_LOG` rows it inserts, and the `returnresult`
columns of the `TBL_BATCH_PROCESSING_LOG` rows it inserts.  Success-path
console messages of the `audited` and `unguarded` operations depend on
their data and are omitted; they carry no audit row beyond the ones
modelled. -/
structure OpAudit where
  messages : List Str
  event_rows : List Str
  batch_rows : List Str

/-- One per-operation function, by handler shape. -/
def run_operation (w : OpWrapper) (body : Except Str Unit) :
    OpAudit × Except Str Unit :=
  match w, body with
  | OpWrapper.audited, Except.ok _ =>
    (⟨[], [str "true"], [str "success"]⟩, Except.ok ())
  | OpWrapper.audited, Except.error e =>
    (⟨[str "An error occurred: " ++ e], [str "false"], [str "failed"]⟩,
      Except.error e)
  | OpWrapper.logOnly, Except.ok _ =>
    (⟨[str "Old BCP data older than 1 month deleted successfully."], [], []⟩,
      Except.ok ())
  | OpWrapper.logOnly, Except.error e =>
    (⟨[str "An error occurred while deleting old BCP data: " ++ e], [], []⟩,
      Except.error e)
  | OpWrapper.unguarded, Except.ok _ => (⟨[], [], []⟩, Except.ok ())
  | OpWrapper.unguarded, Except.error e => (⟨[], [], []⟩, Except.error e)

/-- `main` (src/main.py lines 58-204): the operation's audit output, main's
own log lines (the inner handler's line, then the outer handler's line on a
failure), and the process exit code. -/
def main_run (w : OpWrapper) (body : Except Str Unit) :
    OpAudit × List Str × ℕ :=
  match run_operation w body with
  | (audit, Except.ok _) => (audit, [], 0)
  | (audit, Except.error e) =>
    (audit, [str "An error occurred: " ++ e, str "An error occurred: " ++ e], 0)

theorem walkBack1_sound (H : Finset ℤ) :
    ∀ fuel x r, walkBack1 H fuel x = some r →
      isTradingDay H r ∧ r ≤ x ∧ ∀ y, r < y → y ≤ x → ¬ isTradingDay H y := by
  intro fuel
  induction fuel with
  | zero => intro x r h; simp [walkBack1] at h
  | succ n ih =>
    intro x r h
    rw [walkBack1] at h
    by_cases ht : isTradingDay H x
    · rw [if_pos ht] at h
      obtain rfl : x = r := by simpa using h
      exact ⟨ht, le_refl x, fun y h1 h2 => absurd (lt_of_lt_of_le h1 h2) (lt_irrefl x)⟩
    · rw [if_neg ht] at h
      obtain ⟨hr, hle, hnone⟩ := ih (x - 1) r h
      refine ⟨hr, by omega, fun y h1 h2 => ?_⟩
      rcases eq_or_lt_of_le h2 with rfl | hlt
      · exact ht
      · exact hnone y h1 (by omega)

theorem walkBack2_sound (H : Finset ℤ) :
    ∀ fuel x count r, count ≤ 1 → walkBack2 H fuel x count = some r →
      isTradingDay H r ∧ r ≤ x ∧
        ((Finset.Ioc r x).filter (fun y => isTradingDay H y)).card = 1 - count := by
  intro fuel
  induction fuel with
  | zero => intro x count r _ h; simp [walkBack2] at h
  | succ n ih =>
    intro x count r hcount h
    rw [walkBack2] at h
    by_cases ht : isTradingDay H x
    · simp only [if_pos ht] at h
      interval_cases count
      · rw [if_pos (by omega)] at h
        obtain ⟨hr, hle, hcard⟩ := ih (x - 1) 1 r (by omega) h
        refine ⟨hr, by omega, ?_⟩
        have hioc : Finset.Ioc r x = insert x (Finset.Ioc r (x - 1)) := by
          ext y
          simp only [Finset.mem_Ioc, Finset.mem_insert]
          omega
        rw [hioc, Finset.filter_insert, if_pos ht, Finset.card_insert_of_not_mem]
        · omega
        · simp only [Finset.mem_filter, Finset.mem_Ioc]
          omega
      · rw [if_neg (by omega)] at h
        obtain rfl : x = r := by simpa using h
        refine ⟨ht, le_refl x, ?_⟩
        simp [Finset.Ioc_self]
    · simp only [if_neg ht] at h
      rw [if_pos (by omega)] at h
      obtain ⟨hr, hle, hcard⟩ := ih (x - 1) count r hcount h
      refine ⟨hr, by omega, ?_⟩
      have hioc : Finset.Ioc r x = insert x (Finset.Ioc r (x - 1)) := by
        ext y
        simp only [Finset.mem_Ioc, Finset.mem_insert]
        omega
      rw [hioc, Finset.filter_insert, if_neg ht]
      exact hcard

theorem walkBack1_complete (H : Finset ℤ) :
    ∀ fuel x t, isTradingDay H t → t ≤ x → (x - t).toNat < fuel →
      (walkBack1 H fuel x).isSome := by
  intro fuel
  induction fuel with
  | zero => intro x t _ _ h; omega
  | succ n ih =>
    intro x t ht hle hfuel
    rw [walkBack1]
    by_cases hx : isTradingDay H x
    · rw [if_pos hx]; rfl
    · rw [if_neg hx]
      have hne : t ≠ x := fun he => hx (he ▸ ht)
      exact ih (x - 1) t ht (by omega) (by omega)

theorem walkBack2_complete_one (H : Finset ℤ) :
    ∀ fuel x t, isTradingDay H t → t ≤ x → (x - t).toNat < fuel →
      (walkBack2 H fuel x 1).isSome := by
  intro fuel
  induction fuel with
  | zero => intro x t _ _ h; omega
  | succ n ih =>
    intro x t ht hle hfuel
    rw [walkBack2]
    by_cases hx : isTradingDay H x
    · simp only [if_pos hx]
      rw [if_neg (by omega)]
      rfl
    · simp only [if_neg hx]
      rw [if_pos (by omega)]
      have hne : t ≠ x := fun he => hx (he ▸ ht)
      exact ih (x - 1) t ht (by omega) (by omega)

theorem walkBack2_complete_zero (H : Finset ℤ) :
    ∀ fuel x t1 t2, isTradingDay H t1 → isTradingDay H t2 → t2 < t1 → t1 ≤ x →
      (x - t2).toNat < fuel → (walkBack2 H fuel x 0).isSome := by
  intro fuel
  induction fuel with
  | zero => intro x t1 t2 _ _ _ _ h; omega
  | succ n ih =>
    intro x t1 t2 ht1 ht2 hlt hle hfuel
    rw [walkBack2]
    by_cases hx : isTradingDay H x
    · simp only [if_pos hx]
      rw [if_pos (by omega)]
      exact walkBack2_complete_one H n (x - 1) t2 ht2 (by omega) (by omega)
    · simp only [if_neg hx]
      rw [if_pos (by omega)]
      have hne : t1 ≠ x := fun he => hx (he ▸ ht1)
      exact ih (x - 1) t1 t2 ht1 ht2 hlt (by omega) (by omega)

theorem exists_two_trading_below (H : Finset ℤ) (d : ℤ) :
    ∃ t1 t2, isTradingDay H t1 ∧ isTradingDay H t2 ∧ t2 < t1 ∧ t1 < d := by
  set L : ℤ := (insert d H).min' (Finset.insert_nonempty d H) with hL
  have hLd : L ≤ d := Finset.min'_le _ d (Finset.mem_insert_self d H)
  have hLH : ∀ h ∈ H, L ≤ h := fun h hh =>
    Finset.min'_le _ h (Finset.mem_insert_of_mem hh)
  set k : ℤ := -(|L| + 1) with hk
  have h7k : 7 * k + 1 < L := by
    have h1 : -|L| ≤ L := neg_abs_le L
    have h2 : 0 ≤ |L| := abs_nonneg L
    omega
  have hmem : ∀ z : ℤ, z < L → z ∉ H := by
    intro z hz hzH
    exact absurd (hLH z hzH) (by omega)
  refine ⟨7 * k + 1, 7 * k, ⟨by omega, hmem _ (by omega)⟩, ⟨by omega, hmem _ (by omega)⟩,
    by omega, by omega⟩

/-- C1: for a trading-day input `d`, `get_recent_business_date` returns the
latest trading day strictly before `d`; for a non-trading-day input it returns
the 2nd trading day found walking backward from `d` (exactly one trading day
lies strictly between the result and `d`). -/
theorem C1_get_recent_business_date_spec (H : Finset ℤ) (fuel : ℕ) (d r : ℤ)
    (h : get_recent_business_date H fuel d = some r) :
    (isTradingDay H d →
      isTradingDay H r ∧ r < d ∧ ∀ y, r < y → y < d → ¬ isTradingDay H y) ∧
    (¬ isTradingDay H d →
      isTradingDay H r ∧ r < d ∧
        ((Finset.Ioo r d).filter (fun y => isTradingDay H y)).card = 1) := by
  rw [get_recent_business_date] at h
  by_cases hd : isTradingDay H d
  · rw [if_pos hd] at h
    obtain ⟨hr, hle, hnone⟩ := walkBack1_sound H fuel (d - 1) r h
    exact ⟨fun _ => ⟨hr, by omega, fun y h1 h2 => hnone y h1 (by omega)⟩,
      fun hnd => absurd hd hnd⟩
  · rw [if_neg hd] at h
    obtain ⟨hr, hle, hcard⟩ := walkBack2_sound H fuel (d - 1) 0 r (by omega) h
    refine ⟨fun htd => absurd htd hd, fun _ => ⟨hr, by omega, ?_⟩⟩
    have hioo : Finset.Ioo r d = Finset.Ioc r (d - 1) := by
      ext y
      simp only [Finset.mem_Ioo, Finset.mem_Ioc]
      omega
    rw [hioo]
    omega

theorem C1_witness :
    (isTradingDay ∅ 8 →
      isTradingDay ∅ 7 ∧ (7 : ℤ) < 8 ∧ ∀ y, 7 < y → y < 8 → ¬ isTradingDay ∅ y) ∧
    (¬ isTradingDay ∅ 8 →
      isTradingDay ∅ 7 ∧ (7 : ℤ) < 8 ∧
        ((Finset.Ioo (7 : ℤ) 8).filter (fun y => isTradingDay ∅ y)).card = 1) :=
  C1_get_recent_business_date_spec ∅ 10 8 7 (by decide)

/-- C10: `get_recent_business_date` terminates on every input: because the
holiday set is finite, some fuel suffices for both backward-walk loops, and
the function returns a date. -/
theorem C10_get_recent_business_date_terminates (H : Finset ℤ) (d : ℤ) :
    ∃ fuel r, get_recent_business_date H fuel d = some r := by
  obtain ⟨t1, t2, ht1, ht2, hlt, hld⟩ := exists_two_trading_below H d
  by_cases hd : isTradingDay H d
  · have h := walkBack1_complete H ((d - 1 - t1).toNat + 1) (d - 1) t1 ht1
      (by omega) (by omega)
    obtain ⟨r, hr⟩ := Option.isSome_iff_exists.mp h
    exact ⟨(d - 1 - t1).toNat + 1, r, by rw [get_recent_business_date, if_pos hd]; exact hr⟩
  · have h := walkBack2_complete_zero H ((d - 1 - t2).toNat + 1) (d - 1) t1 t2 ht1 ht2
      hlt (by omega) (by omega)
    obtain ⟨r, hr⟩ := Option.isSome_iff_exists.mp h
    exact ⟨(d - 1 - t2).toNat + 1, r, by rw [get_recent_business_date, if_neg hd]; exact hr⟩

theorem total_rt_example_eval :
    total_rt [1 / 100, -(1 / 50), 3 / 100] = 39 / 20 := by
  have hq : (([1 / 100, -(1 / 50), 3 / 100] : List ℚ).map (fun r => r + 1)).prod * 100 - 100
      = 9747 / 5000 := by
    simp only [List.map_cons, List.map_nil, List.prod_cons, List.prod_nil]
    norm_num
  unfold total_rt
  rw [hq]
  unfold round2 roundHalfEven
  have hfl : ⌊(9747 / 5000 : ℚ) * 100⌋ = 194 := by norm_num
  rw [hfl]
  rw [if_neg (by norm_num), if_pos (by norm_num)]
  norm_num

/-- C2 counterexample: on the daily returns `[0.01, -0.02, 0.03]` the code's
compounded return is not `1.89`: `(1.01 * 0.98 * 1.03 - 1) * 100 = 1.9494`,
which rounds to `1.95`. -/
theorem C2_counterexample :
    ¬ total_rt [1 / 100, -(1 / 50), 3 / 100] = 189 / 100 := by
  rw [total_rt_example_eval]
  norm_num

/-- C2 (amended): the computed compounded return equals
`((Π(1 + r_i)) - 1) * 100` rounded to 2 decimal places half-to-even, and on
the daily returns `[0.01, -0.02, 0.03]` the result is `1.95`. -/
theorem C2_calculate_performance_amended :
    (∀ rs : List ℚ, total_rt rs = specCompoundedReturn rs) ∧
      total_rt [1 / 100, -(1 / 50), 3 / 100] = 39 / 20 := by
  constructor
  · intro rs
    unfold total_rt specCompoundedReturn
    have hm : rs.map (fun r => r + 1) = rs.map (fun r => 1 + r) := by
      simp [add_comm]
    rw [hm]
    congr 1
    ring
  · exact total_rt_example_eval

theorem length_filter_map {α β : Type} (f : α → β) (p : β → Bool) (l : List α) :
    ((l.map f).filter p).length = (l.filter fun a => p (f a)).length := by
  induction l with
  | nil => rfl
  | cons a l ih =>
    simp only [List.map_cons, List.filter_cons]
    cases hp : p (f a) <;> simp [hp, ih]

theorem natMin?_eq_some_iff {xs : List ℕ} {a : ℕ} :
    xs.min? = some a ↔ a ∈ xs ∧ ∀ b ∈ xs, a ≤ b :=
  List.min?_eq_some_iff (fun a => Nat.le_refl a) (fun a b => min_choice a b)
    (fun _ _ _ => le_min_iff)

theorem monthCnt_eq_ordinalInMonth (T : List HolRow) (d t : ℕ)
    (h1 : d / 100 ≤ t / 100) (h2 : (t / 100) % 100 ∈ ([1, 4, 7, 10] : List ℕ)) :
    monthCnt T d t = ordinalInMonth T t := by
  unfold monthCnt ordinalInMonth rebal_pool tradingDates
  rw [length_filter_map, length_filter_map, List.filter_filter, List.filter_filter]
  congr 1
  apply List.filter_congr
  intro r _
  by_cases hc : r.trddate / 100 = t / 100 ∧ r.trddate ≤ t
  · have hd : d / 100 ≤ r.trddate / 100 := by rw [hc.1]; exact h1
    have hq : (r.trddate / 100) % 100 ∈ ([1, 4, 7, 10] : List ℕ) := by
      rw [hc.1]; exact h2
    have he : decide (d / 100 ≤ r.trddate / 100 ∧ r.holiday_yn = false ∧
        (r.trddate / 100) % 100 ∈ ([1, 4, 7, 10] : List ℕ))
        = decide (r.holiday_yn = false) :=
      decide_eq_decide.mpr ⟨fun h => h.2.1, fun h => ⟨hd, h, hq⟩⟩
    simp only [he]
  · have he : decide (r.trddate / 100 = t / 100 ∧ r.trddate ≤ t) = false :=
      decide_eq_false hc
    simp only [he, Bool.false_and]

theorem mem_tradingDates {T : List HolRow} {t : ℕ} :
    t ∈ tradingDates T ↔ ∃ r ∈ T, r.holiday_yn = false ∧ r.trddate = t := by
  unfold tradingDates
  simp only [List.mem_map, List.mem_filter, decide_eq_true_eq]
  constructor
  · rintro ⟨r, ⟨hrT, hhol⟩, rfl⟩
    exact ⟨r, hrT, hhol, rfl⟩
  · rintro ⟨r, hrT, hhol, rfl⟩
    exact ⟨r, ⟨hrT, hhol⟩, rfl⟩

theorem mem_rebal_pool {T : List HolRow} {d t : ℕ} :
    t ∈ rebal_pool T d ↔
      t ∈ tradingDates T ∧ d / 100 ≤ t / 100 ∧
        (t / 100) % 100 ∈ ([1, 4, 7, 10] : List ℕ) := by
  unfold rebal_pool
  rw [mem_tradingDates]
  simp only [List.mem_map, List.mem_filter, decide_eq_true_eq]
  constructor
  · rintro ⟨r, ⟨hrT, hle, hhol, hq⟩, rfl⟩
    exact ⟨⟨r, hrT, hhol, rfl⟩, hle, hq⟩
  · rintro ⟨⟨r, hrT, hhol, rfl⟩, hle, hq⟩
    exact ⟨r, ⟨hrT, hle, hhol, hq⟩, rfl⟩

theorem mem_next_candidates {T : List HolRow} {d n t : ℕ} :
    t ∈ ((rebal_pool T d).filter fun u => decide (d ≤ u ∧ monthCnt T d u = n)) ↔
      isNthQuarterCand T d n t := by
  rw [List.mem_filter]
  simp only [decide_eq_true_eq]
  unfold isNthQuarterCand
  constructor
  · rintro ⟨hp, hd, hm⟩
    obtain ⟨htrad, hle, hq⟩ := mem_rebal_pool.mp hp
    exact ⟨htrad, hq, hd, by rw [← monthCnt_eq_ordinalInMonth T d t hle hq]; exact hm⟩
  · rintro ⟨htrad, hq, hd, hord⟩
    have hle : d / 100 ≤ t / 100 := Nat.div_le_div_right hd
    exact ⟨mem_rebal_pool.mpr ⟨htrad, hle, hq⟩, hd,
      by rw [monthCnt_eq_ordinalInMonth T d t hle hq]; exact hord⟩

/-- C3: with `n = 3`, `get_next_rebalancing_date` returns the earliest trading
day `t ≥ d` whose month is in Jan/Apr/Jul/Oct and whose ordinal among that
month's trading days (numbered 1..k by ascending date) is 3; it returns the
SQL NULL exactly when no such date exists; and for January 2024 with no
holidays and `d = 2024-01-01` it returns 2024-01-03. -/
theorem C3_get_next_rebalancing_date_spec :
    (∀ T d t, get_next_rebalancing_date T d 3 = some t →
      isNthQuarterCand T d 3 t ∧ ∀ u, isNthQuarterCand T d 3 u → t ≤ u) ∧
    (∀ T d, (get_next_rebalancing_date T d 3 = none ↔
      ∀ t, ¬ isNthQuarterCand T d 3 t)) ∧
    get_next_rebalancing_date jan2024 20240101 3 = some 20240103 := by
  refine ⟨?_, ?_, ?_⟩
  · intro T d t h
    unfold get_next_rebalancing_date at h
    obtain ⟨hmem, hmin⟩ := natMin?_eq_some_iff.mp h
    exact ⟨mem_next_candidates.mp hmem, fun u hu => hmin u (mem_next_candidates.mpr hu)⟩
  · intro T d
    unfold get_next_rebalancing_date
    rw [List.min?_eq_none_iff]
    constructor
    · intro h t hc
      have : t ∈ ([] : List ℕ) := h ▸ mem_next_candidates.mpr hc
      simp at this
    · intro h
      rw [List.filter_eq_nil_iff]
      intro t hmem hpred
      exact h t (mem_next_candidates.mp (List.mem_filter.mpr ⟨hmem, hpred⟩))
  · decide

theorem C3_witness :
    isNthQuarterCand jan2024 20240101 3 20240103 ∧
      ∀ u, isNthQuarterCand jan2024 20240101 3 u → 20240103 ≤ u :=
  C3_get_next_rebalancing_date_spec.1 jan2024 20240101 20240103 (by decide)

theorem splitSemi_cons_append (a : Str) (rest : Str) (h : ';' ∉ a) :
    splitSemi (a ++ ';' :: rest) = a :: splitSemi rest := by
  induction a with
  | nil => simp [splitSemi]
  | cons x xs ih =>
    have hx : ¬ x = ';' := by
      intro he
      exact h (by rw [he]; exact List.mem_cons_self _ _)
    have hxs : ';' ∉ xs := fun hm => h (List.mem_cons_of_mem x hm)
    rw [List.cons_append, splitSemi, if_neg hx, ih hxs]

theorem semi_not_mem_prd_gb_code (pg : Str) : ';' ∉ prd_gb_code pg := by
  unfold prd_gb_code
  split
  · decide
  split
  · decide
  · decide

theorem semi_not_mem_expected_return_map (rg pg : Str) :
    ';' ∉ expected_return_map rg pg := by
  unfold expected_return_map
  repeat' split
  all_goals decide

theorem semi_not_mem_volatility_map (rg pg : Str) : ';' ∉ volatility_map rg pg := by
  unfold volatility_map
  repeat' split
  all_goals decide

theorem splitSemi_create_return_lst (d : Str) (r : MergedRow)
    (h0 : ';' ∉ d) (h1 : ';' ∉ r.risk_grade) (h2 : ';' ∉ r.total_rt)
    (h3 : ';' ∉ renderCell r.total_rt_3m) (h4 : ';' ∉ renderCell r.total_rt_6m)
    (h5 : ';' ∉ renderCell r.total_rt_1y) (h6 : ';' ∉ renderCell r.total_rt_all)
    (h7 : ';' ∉ r.expected_return) (h8 : ';' ∉ r.volatility)
    (h9 : ';' ∉ renderCell r.total_rt_1m) :
    splitSemi (create_return_lst d r) =
      [d, r.risk_grade, prd_gb_code r.prd_gb, r.total_rt,
        renderCell r.total_rt_3m, renderCell r.total_rt_6m,
        renderCell r.total_rt_1y, renderCell r.total_rt_all,
        r.expected_return, r.volatility, renderCell r.total_rt_1m, []] := by
  unfold create_return_lst
  simp only [List.append_assoc, List.cons_append, List.nil_append, semi,
    List.singleton_append]
  rw [splitSemi_cons_append _ _ h0, splitSemi_cons_append _ _ h1,
    splitSemi_cons_append _ _ (semi_not_mem_prd_gb_code r.prd_gb),
    splitSemi_cons_append _ _ h2, splitSemi_cons_append _ _ h3,
    splitSemi_cons_append _ _ h4, splitSemi_cons_append _ _ h5,
    splitSemi_cons_append _ _ h6, splitSemi_cons_append _ _ h7,
    splitSemi_cons_append _ _ h8, splitSemi_cons_append _ _ h9]
  rfl

/-- C6: every rendered `mp_info` line splits on `';'` into exactly the fields
`baseDate; riskGrade; productCode; 1d; 3m; 6m; 1y; all; expected_return;
volatility; 1m;` — the 1-month return last, after volatility, and a trailing
semicolon (the final empty field). -/
theorem C6_mp_info_field_order (d : Str) (r : MergedRow)
    (h0 : ';' ∉ d) (h1 : ';' ∉ r.risk_grade) (h2 : ';' ∉ r.total_rt)
    (h3 : ';' ∉ renderCell r.total_rt_3m) (h4 : ';' ∉ renderCell r.total_rt_6m)
    (h5 : ';' ∉ renderCell r.total_rt_1y) (h6 : ';' ∉ renderCell r.total_rt_all)
    (h7 : ';' ∉ r.expected_return) (h8 : ';' ∉ r.volatility)
    (h9 : ';' ∉ renderCell r.total_rt_1m) :
    splitSemi (create_return_lst d r) =
      [d, r.risk_grade, prd_gb_code r.prd_gb, r.total_rt,
        renderCell r.total_rt_3m, renderCell r.total_rt_6m,
        renderCell r.total_rt_1y, renderCell r.total_rt_all,
        r.expected_return, r.volatility, renderCell r.total_rt_1m, []] :=
  splitSemi_create_return_lst d r h0 h1 h2 h3 h4 h5 h6 h7 h8 h9

theorem C6_witness :
    splitSemi (create_return_lst (str "20240102")
      ⟨str "1", str "f11", str "0.5", some (str "1.1"), some (str "3.3"),
        some (str "6.6"), some (str "9.9"), some (str "12.2"),
        str "9.04", str "3.10"⟩) =
      [str "20240102", str "1", prd_gb_code (str "f11"), str "0.5",
        renderCell (some (str "3.3")), renderCell (some (str "6.6")),
        renderCell (some (str "9.9")), renderCell (some (str "12.2")),
        str "9.04", str "3.10", renderCell (some (str "1.1")), []] :=
  C6_mp_info_field_order (str "20240102")
    ⟨str "1", str "f11", str "0.5", some (str "1.1"), some (str "3.3"),
      some (str "6.6"), some (str "9.9"), some (str "12.2"),
      str "9.04", str "3.10"⟩
    (by decide) (by decide) (by decide) (by decide) (by decide) (by decide)
    (by decide) (by decide) (by decide) (by decide)

theorem lookupTerm_eq_none (tp : List PerfRow) (t rg pg : Str)
    (h : ∀ r ∈ tp, ¬(r.term = t ∧ r.risk_grade = rg ∧ r.prd_gb = pg)) :
    lookupTerm tp t rg pg = none := by
  unfold lookupTerm
  have hf : (tp.filter fun r => decide (r.term = t)).find?
      (fun r => decide (r.risk_grade = rg ∧ r.prd_gb = pg)) = none := by
    rw [List.find?_eq_none]
    intro r hr
    rw [List.mem_filter] at hr
    simp only [decide_eq_true_eq] at hr ⊢
    intro hcon
    exact h r hr.1 ⟨hr.2, hcon.1, hcon.2⟩
  rw [hf]
  rfl

theorem semi_not_mem_renderCell (c : Option Str)
    (h : ∀ s, c = some s → ';' ∉ s) : ';' ∉ renderCell c := by
  cases c with
  | none => decide
  | some s => exact h s rfl

/-- C7 counterexample: one `1d` row for `(risk_grade 1, prd_gb f11)` and no
row for any other window; every missing window's field in the rendered line
is the text `nan`, not the empty string. -/
theorem C7_counterexample :
    ((merge_terms [⟨str "1d", str "1", str "f11", str "0.5"⟩]).map fun r =>
        splitSemi (create_return_lst (str "20240102")
          (add_expected_return_and_volatility r))) =
      [[str "20240102", str "1", str "61", str "0.5", str "nan", str "nan",
        str "nan", str "nan", str "9.04", str "3.10", str "nan", []]] ∧
      str "nan" ≠ ([] : Str) := by
  constructor
  · decide
  · decide

/-- C7 (amended): when a `(risk_grade, prd_gb)` pair has a `1d` anchor row but
no row for one of the windows 3m, 6m, 1y, all, 1m, that window's field in the
rendered `mp_info` line is the text `nan` (the f-string rendering of the
`NaN` left by the left-merge) — not the empty string and not zero. -/
theorem C7_missing_window_renders_nan (tp : List PerfRow) (d : Str) (a : PerfRow)
    (h0 : ';' ∉ d) (h1 : ';' ∉ a.risk_grade) (h2 : ';' ∉ a.total_rt)
    (hc1m : ∀ s, lookupTerm tp (str "1m") a.risk_grade a.prd_gb = some s → ';' ∉ s)
    (hc3m : ∀ s, lookupTerm tp (str "3m") a.risk_grade a.prd_gb = some s → ';' ∉ s)
    (hc6m : ∀ s, lookupTerm tp (str "6m") a.risk_grade a.prd_gb = some s → ';' ∉ s)
    (hc1y : ∀ s, lookupTerm tp (str "1y") a.risk_grade a.prd_gb = some s → ';' ∉ s)
    (hcall : ∀ s, lookupTerm tp (str "all") a.risk_grade a.prd_gb = some s → ';' ∉ s) :
    ((∀ r ∈ tp, ¬(r.term = str "3m" ∧ r.risk_grade = a.risk_grade ∧ r.prd_gb = a.prd_gb)) →
      (splitSemi (create_return_lst d
        (add_expected_return_and_volatility (mergeRow tp a))))[4]? = some (str "nan")) ∧
    ((∀ r ∈ tp, ¬(r.term = str "6m" ∧ r.risk_grade = a.risk_grade ∧ r.prd_gb = a.prd_gb)) →
      (splitSemi (create_return_lst d
        (add_expected_return_and_volatility (mergeRow tp a))))[5]? = some (str "nan")) ∧
    ((∀ r ∈ tp, ¬(r.term = str "1y" ∧ r.risk_grade = a.risk_grade ∧ r.prd_gb = a.prd_gb)) →
      (splitSemi (create_return_lst d
        (add_expected_return_and_volatility (mergeRow tp a))))[6]? = some (str "nan")) ∧
    ((∀ r ∈ tp, ¬(r.term = str "all" ∧ r.risk_grade = a.risk_grade ∧ r.prd_gb = a.prd_gb)) →
      (splitSemi (create_return_lst d
        (add_expected_return_and_volatility (mergeRow tp a))))[7]? = some (str "nan")) ∧
    ((∀ r ∈ tp, ¬(r.term = str "1m" ∧ r.risk_grade = a.risk_grade ∧ r.prd_gb = a.prd_gb)) →
      (splitSemi (create_return_lst d
        (add_expected_return_and_volatility (mergeRow tp a))))[10]? = some (str "nan")) ∧
    str "nan" ≠ ([] : Str) ∧ str "nan" ≠ str "0" := by
  have hsplit := splitSemi_create_return_lst d
    (add_expected_return_and_volatility (mergeRow tp a)) h0 h1 h2
    (semi_not_mem_renderCell _ hc3m) (semi_not_mem_renderCell _ hc6m)
    (semi_not_mem_renderCell _ hc1y) (semi_not_mem_renderCell _ hcall)
    (semi_not_mem_expected_return_map _ _) (semi_not_mem_volatility_map _ _)
    (semi_not_mem_renderCell _ hc1m)
  refine ⟨?_, ?_, ?_, ?_, ?_, by decide, by decide⟩
  · intro h
    rw [hsplit]
    simp only [add_expected_return_and_volatility, mergeRow]
    rw [lookupTerm_eq_none tp (str "3m") a.risk_grade a.prd_gb h]
    rfl
  · intro h
    rw [hsplit]
    simp only [add_expected_return_and_volatility, mergeRow]
    rw [lookupTerm_eq_none tp (str "6m") a.risk_grade a.prd_gb h]
    rfl
  · intro h
    rw [hsplit]
    simp only [add_expected_return_and_volatility, mergeRow]
    rw [lookupTerm_eq_none tp (str "1y") a.risk_grade a.prd_gb h]
    rfl
  · intro h
    rw [hsplit]
    simp only [add_expected_return_and_volatility, mergeRow]
    rw [lookupTerm_eq_none tp (str "all") a.risk_grade a.prd_gb h]
    rfl
  · intro h
    rw [hsplit]
    simp only [add_expected_return_and_volatility, mergeRow]
    rw [lookupTerm_eq_none tp (str "1m") a.risk_grade a.prd_gb h]
    rfl

theorem C7_witness :
    ((∀ r ∈ [PerfRow.mk (str "1d") (str "1") (str "f11") (str "0.5")],
        ¬(r.term = str "3m" ∧
          r.risk_grade = (PerfRow.mk (str "1d") (str "1") (str "f11") (str "0.5")).risk_grade ∧
          r.prd_gb = (PerfRow.mk (str "1d") (str "1") (str "f11") (str "0.5")).prd_gb)) →
      (splitSemi (create_return_lst (str "20240102")
        (add_expected_return_and_volatility
          (mergeRow [PerfRow.mk (str "1d") (str "1") (str "f11") (str "0.5")]
            (PerfRow.mk (str "1d") (str "1") (str "f11") (str "0.5"))))))[4]? =
        some (str "nan")) ∧
    ((∀ r ∈ [PerfRow.mk (str "1d") (str "1") (str "f11") (str "0.5")],
        ¬(r.term = str "6m" ∧
          r.risk_grade = (PerfRow.mk (str "1d") (str "1") (str "f11") (str "0.5")).risk_grade ∧
          r.prd_gb = (PerfRow.mk (str "1d") (str "1") (str "f11") (str "0.5")).prd_gb)) →
      (splitSemi (create_return_lst (str "20240102")
        (add_expected_return_and_volatility
          (mergeRow [PerfRow.mk (str "1d") (str "1") (str "f11") (str "0.5")]
            (PerfRow.mk (str "1d") (str "1") (str "f11") (str "0.5"))))))[5]? =
        some (str "nan")) ∧
    ((∀ r ∈ [PerfRow.mk (str "1d") (str "1") (str "f11") (str "0.5")],
        ¬(r.term = str "1y" ∧
          r.risk_grade = (PerfRow.mk (str "1d") (str "1") (str "f11") (str "0.5")).risk_grade ∧
          r.prd_gb = (PerfRow.mk (str "1d") (str "1") (str "f11") (str "0.5")).prd_gb)) →
      (splitSemi (create_return_lst (str "20240102")
        (add_expected_return_and_volatility
          (mergeRow [PerfRow.mk (str "1d") (str "1") (str "f11") (str "0.5")]
            (PerfRow.mk (str "1d") (str "1") (str "f11") (str "0.5"))))))[6]? =
        some (str "nan")) ∧
    ((∀ r ∈ [PerfRow.mk (str "1d") (str "1") (str "f11") (str "0.5")],
        ¬(r.term = str "all" ∧
          r.risk_grade = (PerfRow.mk (str "1d") (str "1") (str "f11") (str "0.5")).risk_grade ∧
          r.prd_gb = (PerfRow.mk (str "1d") (str "1") (str "f11") (str "0.5")).prd_gb)) →
      (splitSemi (create_return_lst (str "20240102")
        (add_expected_return_and_volatility
          (mergeRow [PerfRow.mk (str "1d") (str "1") (str "f11") (str "0.5")]
            (PerfRow.mk (str "1d") (str "1") (str "f11") (str "0.5"))))))[7]? =
        some (str "nan")) ∧
    ((∀ r ∈ [PerfRow.mk (str "1d") (str "1") (str "f11") (str "0.5")],
        ¬(r.term = str "1m" ∧
          r.risk_grade = (PerfRow.mk (str "1d") (str "1") (str "f11") (str "0.5")).risk_grade ∧
          r.prd_gb = (PerfRow.mk (str "1d") (str "1") (str "f11") (str "0.5")).prd_gb)) →
      (splitSemi (create_return_lst (str "20240102")
        (add_expected_return_and_volatility
          (mergeRow [PerfRow.mk (str "1d") (str "1") (str "f11") (str "0.5")]
            (PerfRow.mk (str "1d") (str "1") (str "f11") (str "0.5"))))))[10]? =
        some (str "nan")) ∧
    str "nan" ≠ ([] : Str) ∧ str "nan" ≠ str "0" :=
  C7_missing_window_renders_nan
    [PerfRow.mk (str "1d") (str "1") (str "f11") (str "0.5")] (str "20240102")
    (PerfRow.mk (str "1d") (str "1") (str "f11") (str "0.5"))
    (by decide) (by decide) (by decide)
    (fun s h => nomatch h) (fun s h => nomatch h) (fun s h => nomatch h)
    (fun s h => nomatch h) (fun s h => nomatch h)

theorem semi_not_mem_rebal_flag (ryn ost : Str) : ';' ∉ rebal_flag ryn ost := by
  unfold rebal_flag
  split
  · decide
  split
  · decide
  · decide

/-- C4: for every selected customer account row, the emitted flag is `N`
whenever the product group has no rebalance event dated exactly the target
date; when it has one, the flag is `Y` iff the customer's `order_status` is
in Y, Y1, Y3; and the next rebalancing date is the third field of the output
line regardless of the flag. -/
theorem C4_rebalcus_flag_spec (M : List MplRow) (acc : List AccountRow) (d : ℕ)
    (gb auth pg next : Str) (a : AccountRow)
    (ha : a ∈ acc) (ht : a.trddate = d) (hg : a.investgb = gb) :
    rebalcus_line (check_rebalancing M d auth pg) next a ∈
      fetch_rebalcus_data acc d gb (check_rebalancing M d auth pg) next ∧
    (rebal_event_count M auth d pg = 0 →
      rebal_flag (check_rebalancing M d auth pg) a.order_status = str "N") ∧
    (rebal_event_count M auth d pg ≠ 0 →
      (rebal_flag (check_rebalancing M d auth pg) a.order_status = str "Y" ↔
        order_status_ok a.order_status)) ∧
    (';' ∉ a.customer_id → ';' ∉ next →
      splitSemi (rebalcus_line (check_rebalancing M d auth pg) next a) =
        [a.customer_id, rebal_flag (check_rebalancing M d auth pg) a.order_status,
          next, []]) := by
  refine ⟨?_, ?_, ?_, ?_⟩
  · unfold fetch_rebalcus_data
    exact List.mem_map.mpr ⟨a, List.mem_filter.mpr ⟨ha, by
      simp only [decide_eq_true_eq]; exact ⟨ht, hg⟩⟩, rfl⟩
  · intro h0
    unfold check_rebalancing
    rw [if_pos h0]
    unfold rebal_flag
    rw [if_pos rfl]
  · intro h0
    unfold check_rebalancing
    rw [if_neg h0]
    unfold rebal_flag
    rw [if_neg (by decide : ¬ (str "Y" = str "N"))]
    by_cases ho : order_status_ok a.order_status
    · rw [if_pos ⟨rfl, ho⟩]
      exact ⟨fun _ => ho, fun _ => rfl⟩
    · rw [if_neg (fun hh => ho hh.2)]
      exact ⟨fun he => absurd he (by decide), fun ho' => absurd ho' ho⟩
  · intro hcid hnext
    unfold rebalcus_line
    simp only [List.append_assoc, List.cons_append, List.nil_append, semi,
      List.singleton_append]
    rw [splitSemi_cons_append _ _ hcid,
      splitSemi_cons_append _ _ (semi_not_mem_rebal_flag _ _),
      splitSemi_cons_append _ _ hnext]
    rfl

theorem C4_witness :
    rebalcus_line
        (check_rebalancing [MplRow.mk (str "foss") (str "P1") 20240102 (str "f12")]
          20240102 (str "foss") (str "f12")) (str "20240403")
        (AccountRow.mk (str "10083") (str "77") (str "Y1") 20240102) ∈
      fetch_rebalcus_data
        [AccountRow.mk (str "10083") (str "77") (str "Y1") 20240102] 20240102
        (str "77")
        (check_rebalancing [MplRow.mk (str "foss") (str "P1") 20240102 (str "f12")]
          20240102 (str "foss") (str "f12")) (str "20240403") ∧
    (rebal_event_count [MplRow.mk (str "foss") (str "P1") 20240102 (str "f12")]
        (str "foss") 20240102 (str "f12") = 0 →
      rebal_flag
        (check_rebalancing [MplRow.mk (str "foss") (str "P1") 20240102 (str "f12")]
          20240102 (str "foss") (str "f12"))
        (AccountRow.mk (str "10083") (str "77") (str "Y1") 20240102).order_status =
        str "N") ∧
    (rebal_event_count [MplRow.mk (str "foss") (str "P1") 20240102 (str "f12")]
        (str "foss") 20240102 (str "f12") ≠ 0 →
      (rebal_flag
        (check_rebalancing [MplRow.mk (str "foss") (str "P1") 20240102 (str "f12")]
          20240102 (str "foss") (str "f12"))
        (AccountRow.mk (str "10083") (str "77") (str "Y1") 20240102).order_status =
        str "Y" ↔
        order_status_ok
          (AccountRow.mk (str "10083") (str "77") (str "Y1") 20240102).order_status)) ∧
    (';' ∉ (AccountRow.mk (str "10083") (str "77") (str "Y1") 20240102).customer_id →
      ';' ∉ str "20240403" →
      splitSemi (rebalcus_line
        (check_rebalancing [MplRow.mk (str "foss") (str "P1") 20240102 (str "f12")]
          20240102 (str "foss") (str "f12")) (str "20240403")
        (AccountRow.mk (str "10083") (str "77") (str "Y1") 20240102)) =
        [(AccountRow.mk (str "10083") (str "77") (str "Y1") 20240102).customer_id,
          rebal_flag
            (check_rebalancing [MplRow.mk (str "foss") (str "P1") 20240102 (str "f12")]
              20240102 (str "foss") (str "f12"))
            (AccountRow.mk (str "10083") (str "77") (str "Y1") 20240102).order_status,
          str "20240403", []]) :=
  C4_rebalcus_flag_spec [MplRow.mk (str "foss") (str "P1") 20240102 (str "f12")]
    [AccountRow.mk (str "10083") (str "77") (str "Y1") 20240102] 20240102
    (str "77") (str "foss") (str "f12") (str "20240403")
    (AccountRow.mk (str "10083") (str "77") (str "Y1") 20240102)
    (List.mem_cons_self _ _) rfl rfl

/-- C5: the manual-override slip.  The in-memory dataframe update matches
lines by the exact prefix `"10083;"`, so customer `100831`'s formatted line
is untouched; but the SQL update's `LIKE '10083%;'` also matches customer
`100831`'s staged `TBL_FOSS_BCPDATA` row and overwrites it with the forced
`10083` line. -/
theorem C5_like_update_clobbers_longer_id :
    update_manual_df [str "100831;N;20240101;"] (str "10083") (str "Y")
        (str "20240403") = [str "100831;N;20240101;"] ∧
    update_manual_bcp [str "100831;N;20240101;"] (str "10083") (str "Y")
        (str "20240403") = [str "10083;Y;20240403;"] ∧
    str "10083;Y;20240403;" ≠ str "100831;N;20240101;" := by
  refine ⟨?_, ?_, ?_⟩
  · decide
  · decide
  · decide

/-- C8: whenever the row count of `TBL_RESULT_RETURN` on the resolved base
date differs from the distinct-portfolio count of the latest rebalancing
batch, `process_yesterday_return_data` stages no `TBL_FOSS_BCPDATA` row,
writes no file, uploads nothing and raises no error — it only emits the
mismatch log line. -/
theorem C8_count_mismatch_aborts_silently (rr : List RrRow) (M : List MplRow)
    (tp : List PerfRow) (fnd : ℕ)
    (h : count_result_return rr fnd ≠ count_port_cd M) :
    (process_yesterday_return_data rr M tp fnd).bcp_lst = [] ∧
    (process_yesterday_return_data rr M tp fnd).file_written = false ∧
    (process_yesterday_return_data rr M tp fnd).uploaded = false ∧
    (process_yesterday_return_data rr M tp fnd).raised = false ∧
    (process_yesterday_return_data rr M tp fnd).logs =
      [str "Data mismatch between TBL_RESULT_RETURN and TBL_RESULT_MPLIST. Process stopped."] := by
  unfold process_yesterday_return_data
  rw [if_pos h]
  exact ⟨rfl, rfl, rfl, rfl, rfl⟩

theorem C8_witness :
    (process_yesterday_return_data [RrRow.mk (str "foss") (str "P1") 20240101]
      [] [] 20240101).bcp_lst = [] ∧
    (process_yesterday_return_data [RrRow.mk (str "foss") (str "P1") 20240101]
      [] [] 20240101).file_written = false ∧
    (process_yesterday_return_data [RrRow.mk (str "foss") (str "P1") 20240101]
      [] [] 20240101).uploaded = false ∧
    (process_yesterday_return_data [RrRow.mk (str "foss") (str "P1") 20240101]
      [] [] 20240101).raised = false ∧
    (process_yesterday_return_data [RrRow.mk (str "foss") (str "P1") 20240101]
      [] [] 20240101).logs =
      [str "Data mismatch between TBL_RESULT_RETURN and TBL_RESULT_MPLIST. Process stopped."] :=
  C8_count_mismatch_aborts_silently [RrRow.mk (str "foss") (str "P1") 20240101]
    [] [] 20240101 (by decide)

/-- C9 counterexample: for the DELETE_OLDDATA operation
(`delete_old_bcp_data`), a failure writes no event-log row and no
batch-processing-log row — there is no failure audit record — and the
process exit code is 0, not non-zero; both refute the claim as stated at
this concrete operation and input. -/
theorem C9_counterexample :
    (run_operation OpWrapper.logOnly (Except.error (str "boom"))).1.event_rows
        = [] ∧
    (run_operation OpWrapper.logOnly (Except.error (str "boom"))).1.batch_rows
        = [] ∧
    (main_run OpWrapper.logOnly (Except.error (str "boom"))).2.2 = 0 :=
  ⟨rfl, rfl, rfl⟩

/-- C9 (amended): on failure, each of the eight audited operations logs the
error, writes the failure audit records (event log `false`, batch log
`failed`) and re-raises; `delete_old_bcp_data` logs the error and re-raises
with no audit row; `insert_fnd_list_data_to_qbt_api` has no handler, so the
failure propagates with nothing written; for every operation, `main`'s inner
handler logs and re-raises, its outer handler records the final failure as a
log line, and the process then exits with code 0 — not non-zero. -/
theorem C9_failure_propagation_amended (e : Str) :
    (run_operation OpWrapper.audited (Except.error e)).2 = Except.error e ∧
    (run_operation OpWrapper.audited (Except.error e)).1.messages =
      [str "An error occurred: " ++ e] ∧
    (run_operation OpWrapper.audited (Except.error e)).1.event_rows =
      [str "false"] ∧
    (run_operation OpWrapper.audited (Except.error e)).1.batch_rows =
      [str "failed"] ∧
    (run_operation OpWrapper.logOnly (Except.error e)).2 = Except.error e ∧
    (run_operation OpWrapper.logOnly (Except.error e)).1.messages =
      [str "An error occurred while deleting old BCP data: " ++ e] ∧
    (run_operation OpWrapper.logOnly (Except.error e)).1.event_rows = [] ∧
    (run_operation OpWrapper.logOnly (Except.error e)).1.batch_rows = [] ∧
    (run_operation OpWrapper.unguarded (Except.error e)).2 = Except.error e ∧
    (run_operation OpWrapper.unguarded (Except.error e)).1.event_rows = [] ∧
    (run_operation OpWrapper.unguarded (Except.error e)).1.batch_rows = [] ∧
    (∀ w, (main_run w (Except.error e)).2.1 =
      [str "An error occurred: " ++ e, str "An error occurred: " ++ e]) ∧
    (∀ w, (main_run w (Except.error e)).2.2 = 0) := by
  refine ⟨rfl, rfl, rfl, rfl, rfl, rfl, rfl, rfl, rfl, rfl, rfl, ?_, ?_⟩
  · intro w
    cases w <;> rfl
  · intro w
    cases w <;> rfl
